import Mathlib

/-!
# Verification of the trading decision core (`trading_system.py`, `data_collector.py`)

Shallow embedding of the decision/adaptation loop of the repository:
the per-currency dynamic-threshold store, the indicator signal loop, the
Fibonacci range filter, the outcome simulator, the decision cycle
(`make_trading_decision`), the per-news-row driver (`fetch_news_and_impact`)
and the news deduplication of `insert_news_data`.

Numeric values are modelled as rationals.  The database tables are modelled
as in-memory lists; Python dictionaries (insertion-ordered) are modelled as
association lists.  The pseudo-random draw of `uniform(-50, 100)` is passed
in as an explicit parameter bounded by the interval it is drawn from.
-/

namespace TradingSystem

/-- The trade actions of the system. -/
inductive Action
  | buy
  | sell
  | hold
deriving DecidableEq, Repr

/-- A row of the `dynamic_thresholds` table
(columns sma, rsi_buy, rsi_sell, macd, bollinger_band, ema). -/
structure Thresholds where
  sma : ℚ
  rsi_buy : ℚ
  rsi_sell : ℚ
  macd : ℚ
  bollinger_band : ℚ
  ema : ℚ
deriving DecidableEq, Repr

/-- Default thresholds returned by `get_dynamic_thresholds` when no row for
the currency is stored (trading_system.py lines 409-417). -/
def defaultThresholds : Thresholds :=
  { sma := 50, rsi_buy := 30, rsi_sell := 70, macd := 0, bollinger_band := -2, ema := 0 }

/-- The "aggressive" threshold set written by `update_dynamic_thresholds`
when the performance score is positive (trading_system.py lines 435-444). -/
def aggressiveThresholds : Thresholds :=
  { sma := 55, rsi_buy := 32, rsi_sell := 68, macd := 1/10, bollinger_band := -5/2, ema := 1/20 }

/-- The "conservative" threshold set written by `update_dynamic_thresholds`
when the performance score is not positive (trading_system.py lines 445-454). -/
def conservativeThresholds : Thresholds :=
  { sma := 45, rsi_buy := 28, rsi_sell := 72, macd := -1/10, bollinger_band := -3/2, ema := -1/20 }

/-- The `dynamic_thresholds` table: a list of (currency, thresholds) rows. -/
abbrev ThresholdTable := List (String × Thresholds)

/-- `get_dynamic_thresholds` (trading_system.py lines 370-417): `SELECT ...
FROM dynamic_thresholds WHERE currency = %s` followed by `fetchone`; returns
the matching row's values, or the documented defaults when no row matches. -/
def get_dynamic_thresholds (db : ThresholdTable) (currency : String) : Thresholds :=
  match db.find? (fun r => r.1 == currency) with
  | some r => r.2
  | none => defaultThresholds

/-- `save_dynamic_thresholds` (trading_system.py lines 465-492): an SQL
`UPDATE dynamic_thresholds SET ... WHERE currency = %s`.  An UPDATE rewrites
every row whose currency matches and inserts nothing. -/
def save_dynamic_thresholds (db : ThresholdTable) (currency : String)
    (t : Thresholds) : ThresholdTable :=
  db.map (fun r => if r.1 == currency then (r.1, t) else r)

/-- `update_dynamic_thresholds` (trading_system.py lines 425-457): a binary
policy on the performance score, then a save. -/
def update_dynamic_thresholds (db : ThresholdTable) (currency : String)
    (performance_score : ℚ) : ThresholdTable :=
  let new_thresholds :=
    if performance_score > 0 then aggressiveThresholds else conservativeThresholds
  save_dynamic_thresholds db currency new_thresholds

/-- Python dict lookup `d.get(k)` on an insertion-ordered dict modelled as an
association list. -/
def dictGet (d : List (String × ℚ)) (k : String) : Option ℚ :=
  (d.find? (fun p => p.1 == k)).map Prod.snd

/-- One iteration of the indicator loop of `make_trading_decision`
(trading_system.py lines 631-643): the `if`/`elif` chain that may overwrite
the current action with this indicator's vote. -/
def evalIndicator (th : Thresholds) (action : Action) (indicator : String)
    (value : ℚ) : Action :=
  if indicator = "SMA" ∧ value > th.sma then Action.buy
  else if indicator = "RSI" ∧ value < th.rsi_buy then Action.buy
  else if indicator = "RSI" ∧ value > th.rsi_sell then Action.sell
  else if indicator = "MACD" ∧ value > th.macd then Action.buy
  else if indicator = "Bollinger_upper" ∧ value < th.bollinger_band then Action.buy
  else if indicator = "EMA" ∧ value > th.ema then Action.buy
  else action

/-- The `for indicator, value in indicators.items()` loop of
`make_trading_decision` (trading_system.py lines 627-643), acting on the
single mutable action slot. -/
def signalLoop (th : Thresholds) (indicators : List (String × ℚ))
    (action : Action) : Action :=
  indicators.foldl (fun act p => evalIndicator th act p.1 p.2) action

/-- A row of the `fibonacci_retracement_data` table. -/
structure FibLevels where
  level_23_6 : ℚ
  level_38_2 : ℚ
  level_50_0 : ℚ
  level_61_8 : ℚ
  level_100 : ℚ
deriving DecidableEq, Repr

/-- The Fibonacci range filter of `make_trading_decision`
(trading_system.py lines 646-649): an `if`/`elif` pair, so the sell band is
tested only when the buy band did not match. -/
def rangeFilter (fib : FibLevels) (sma : ℚ) (action : Action) : Action :=
  if fib.level_38_2 < sma ∧ sma < fib.level_61_8 then Action.buy
  else if fib.level_50_0 < sma ∧ sma < fib.level_100 then Action.sell
  else action

/-- The decision portion of `make_trading_decision` (trading_system.py lines
619-649): start from `hold`, run the signal loop, then the range filter on
`indicators['SMA']`.  The direct dict indexing raises `KeyError` when the
`'SMA'` key is absent, modelled as `none`. -/
def decideAction (dyn : Thresholds) (indicators : List (String × ℚ))
    (fib : FibLevels) : Option Action :=
  (dictGet indicators "SMA").map
    (fun sma => rangeFilter fib sma (signalLoop dyn indicators Action.hold))

/-- Round-half-to-even on a rational, mirroring Python's `round` on the
scaled value. -/
def roundHalfEven (x : ℚ) : ℤ :=
  let n := ⌊x⌋
  let f := x - n
  if f < 1/2 then n
  else if 1/2 < f then n + 1
  else if Even n then n else n + 1

/-- Python's `round(x, 2)`: banker's rounding to two decimal places. -/
def round2 (x : ℚ) : ℚ := (roundHalfEven (x * 100) : ℚ) / 100

/-- `evaluate_trade` (trading_system.py lines 583-602): for `buy`/`sell`,
`round(uniform(-50, 100), 2)` with the uniform draw passed in explicitly;
for any other action, `0.0`. -/
def evaluate_trade (action : Action) (draw : ℚ) : ℚ :=
  if action = Action.buy ∨ action = Action.sell then round2 draw
  else 0

/-- A row of the `trade_log` table, as inserted by `log_trade_action`
(trading_system.py lines 28-55) and later possibly rewritten by
`update_bad_decision` or removed by `delete_bad_decision`.  The insert does
not set `performance_score`, so that column starts as NULL (`none`). -/
structure TradeRecord where
  id : ℕ
  action : Action
  currency : String
  sma : Option ℚ
  rsi : Option ℚ
  macd : Option ℚ
  bollinger_band : Option ℚ
  ema : Option ℚ
  result : ℚ
  position_size : ℚ
  risk_level : String
  strategy : String
  performance_score : Option ℚ
deriving DecidableEq, Repr

/-- The mutable database state touched by one decision cycle: the
`dynamic_thresholds` table, the `trade_log` table with its auto-increment
counter, the `performance_log` table, the `indicators_effect` audit log and
the list of (mock-)executed trades. -/
structure DBState where
  thresholds : ThresholdTable
  trade_log : List TradeRecord
  next_id : ℕ
  performance_log : List (ℕ × ℚ)
  indicator_effects : List (String × ℚ × String)
  executed : List (String × Action)
deriving DecidableEq, Repr

/-- `update_bad_decision` (trading_system.py lines 706-730): `UPDATE
trade_log SET action = %s, performance_score = %s WHERE id = %s`. -/
def update_bad_decision (st : DBState) (trade_id : ℕ) (new_action : Action)
    (performance_score : ℚ) : DBState :=
  { st with trade_log := st.trade_log.map (fun r =>
      if r.id == trade_id then
        { r with action := new_action, performance_score := some performance_score }
      else r) }

/-- `delete_bad_decision` (trading_system.py lines 64-92): `DELETE FROM
trade_log WHERE id = %s`. -/
def delete_bad_decision (st : DBState) (trade_id : ℕ) : DBState :=
  { st with trade_log := st.trade_log.filter (fun r => !(r.id == trade_id)) }

/-- The effects of one decision cycle of `make_trading_decision`
(trading_system.py lines 612-675) once the action has been decided: log the
indicator effects (done inside the signal loop in the source, one row per
indicator in iteration order), evaluate the trade, insert the trade-log row
(`log_trade_action` reads the indicator dict under the keys
`'SMA'/'RSI'/'MACD'/'Bollinger Band'/'EMA'` with `.get`, i.e. NULL when a
key is absent), append the performance row, update the dynamic thresholds
with the `performance_score` local — which the source initialises to `0`
and never reassigns — then run the bad-decision `if`/`elif` (the `elif
profit_loss < -10` arm is unreachable because `profit_loss < -10` implies
`profit_loss < 0`), and finally record the mock execution when the action
is not `hold`. -/
def cycleState (currency impact : String) (indicators : List (String × ℚ))
    (action : Action) (draw : ℚ) (st : DBState) : DBState :=
  let performance_score : ℚ := 0
  let st1 := { st with indicator_effects :=
    st.indicator_effects ++ indicators.map (fun p : String × ℚ => (p.1, p.2, impact)) }
  let result := evaluate_trade action draw
  let trade_id := st1.next_id
  let record : TradeRecord :=
    { id := trade_id, action := action, currency := currency,
      sma := dictGet indicators "SMA", rsi := dictGet indicators "RSI",
      macd := dictGet indicators "MACD",
      bollinger_band := dictGet indicators "Bollinger Band",
      ema := dictGet indicators "EMA",
      result := result, position_size := 100, risk_level := "medium",
      strategy := "dynamic", performance_score := none }
  let st2 := { st1 with trade_log := st1.trade_log ++ [record], next_id := trade_id + 1 }
  let profit_loss := result
  let st3 := { st2 with performance_log := st2.performance_log ++ [(trade_id, profit_loss)] }
  let st4 := { st3 with thresholds :=
    update_dynamic_thresholds st3.thresholds currency performance_score }
  let st5 :=
    if profit_loss < 0 then update_bad_decision st4 trade_id Action.hold 0
    else if profit_loss < -10 then delete_bad_decision st4 trade_id
    else st4
  if action ≠ Action.hold then { st5 with executed := st5.executed ++ [(currency, action)] }
  else st5

/-- `make_trading_decision` (trading_system.py lines 612-675): fetch the
dynamic thresholds, decide the action (signal loop then range filter), then
perform the cycle's effects.  When `indicators['SMA']` raises `KeyError`
the exception propagates out of the main loop and kills the process, so the
failing run is modelled as `none` (its partial writes are not observed by
any later cycle). -/
def make_trading_decision (currency impact : String)
    (indicators : List (String × ℚ)) (fib : FibLevels) (draw : ℚ)
    (st : DBState) : Option DBState :=
  let dyn := get_dynamic_thresholds st.thresholds currency
  (decideAction dyn indicators fib).map
    (fun action => cycleState currency impact indicators action draw st)

/-- The indicator row fetched per news item by `fetch_news_and_impact`
(trading_system.py lines 526-540). -/
structure IndicatorRow where
  sma : ℚ
  rsi : ℚ
  macd : ℚ
  upper_band : ℚ
  middle_band : ℚ
  lower_band : ℚ
  bb_period : ℚ
  bb_deviation : ℚ
  ema : ℚ
deriving DecidableEq, Repr

/-- The indicator dict built by `fetch_news_and_impact` (trading_system.py
lines 541-552), in insertion order and with its exact keys — in particular
`'Bollinger Band - Upper'`, not the `'Bollinger_upper'` key the decision
loop matches on. -/
def pipelineIndicators (d : IndicatorRow) : List (String × ℚ) :=
  [("SMA", d.sma), ("RSI", d.rsi), ("MACD", d.macd),
   ("Bollinger Band - Upper", d.upper_band),
   ("Bollinger Band - Middle", d.middle_band),
   ("Bollinger Band - Lower", d.lower_band),
   ("Bollinger Band Period", d.bb_period),
   ("Bollinger Band Deviation", d.bb_deviation),
   ("EMA", d.ema)]

/-- One news row of the join driving `fetch_news_and_impact`
(trading_system.py lines 509-519). -/
structure NewsRow where
  title : String
  currency : String
  actual : String
  forecast : String
  previous : String
  impact : String
deriving DecidableEq, Repr

/-- The body of the `for row in results` loop of `fetch_news_and_impact`
(trading_system.py lines 518-573): fetch the indicator row and the
Fibonacci row for the snapshot (both keyed on the news title in the
source's queries); when either `fetchone` returns nothing the cycle for
this snapshot is skipped — no retry, no decision — and the loop moves on;
otherwise run `make_trading_decision`. -/
def processNewsRow (fetchIndicators : String → Option IndicatorRow)
    (fetchFib : String → Option FibLevels) (row : NewsRow) (draw : ℚ)
    (st : DBState) : Option DBState :=
  match fetchIndicators row.title with
  | none => some st
  | some ind =>
    match fetchFib row.title with
    | none => some st
    | some fib =>
      make_trading_decision row.currency row.impact (pipelineIndicators ind) fib draw st

/-- `fetch_news_and_impact` (trading_system.py lines 500-575): run the loop
body over every news row; `draws` supplies the pseudo-random draw for each
row's cycle. -/
def fetch_news_and_impact (fetchIndicators : String → Option IndicatorRow)
    (fetchFib : String → Option FibLevels) (rows : List NewsRow)
    (draws : NewsRow → ℚ) (st : DBState) : Option DBState :=
  rows.foldlM (fun s row => processNewsRow fetchIndicators fetchFib row (draws row) s) st

/-- The directional vote of a single indicator reading against the
thresholds: the branch of the `if`/`elif` chain of `make_trading_decision`
(trading_system.py lines 631-643) that this (name, value) pair satisfies,
or `none` when no rule condition holds (in which case the chain leaves the
action slot untouched). -/
def indicatorVote (th : Thresholds) (indicator : String) (value : ℚ) :
    Option Action :=
  if indicator = "SMA" ∧ value > th.sma then some Action.buy
  else if indicator = "RSI" ∧ value < th.rsi_buy then some Action.buy
  else if indicator = "RSI" ∧ value > th.rsi_sell then some Action.sell
  else if indicator = "MACD" ∧ value > th.macd then some Action.buy
  else if indicator = "Bollinger_upper" ∧ value < th.bollinger_band then some Action.buy
  else if indicator = "EMA" ∧ value > th.ema then some Action.buy
  else none

/-- The specification's reading of the Signal Evaluator: the vote of the
last indicator in the sequence whose rule condition holds, and `hold` when
no rule matches. -/
def lastMatchingVote (th : Thresholds) (indicators : List (String × ℚ)) : Action :=
  ((indicators.filterMap (fun p => indicatorVote th p.1 p.2)).getLast?).getD Action.hold

/-- An indicator sequence in the fixed documented order
SMA, RSI, MACD, Bollinger (upper), EMA. -/
def orderedIndicators (sma rsi macd bollinger_upper ema : ℚ) :
    List (String × ℚ) :=
  [("SMA", sma), ("RSI", rsi), ("MACD", macd),
   ("Bollinger_upper", bollinger_upper), ("EMA", ema)]

/-- A stored row of the `news_data` table, as inserted by
`insert_news_data` (data_collector.py lines 785-789). -/
structure NewsDBRow where
  news_time : String
  title : String
  impact : String
  currency : String
  actual : String
  forecast : String
  previous : String
  impact_id : Option ℕ
deriving DecidableEq, Repr

/-- A scraped news item handed to `insert_news_data`. -/
structure NewsItem where
  time : String
  date : String
  event : String
  impact : String
  currency : String
  actual : String
  forecast : String
  previous : String
deriving DecidableEq, Repr

/-- The impact_id `if`/`elif` chain of `insert_news_data`
(data_collector.py lines 770-776). -/
def impactIdOf (impact : String) : Option ℕ :=
  if impact = "Low Impact Expected" then some 1
  else if impact = "Medium Impact Expected" then some 2
  else if impact = "High Impact Expected" then some 3
  else none

/-- The duplicate check of `insert_news_data` (data_collector.py lines
779-781): `SELECT COUNT(*) FROM news_data WHERE title = %s AND news_time =
%s` compared against 0. -/
def newsExists (db : List NewsDBRow) (title time : String) : Bool :=
  db.any (fun r => r.title == title && r.news_time == time)

/-- The body of the `for news_item in news_data` loop of `insert_news_data`
(data_collector.py lines 738-791).  The `datetime.strptime`-based
normalisation of the raw time/date strings into the stored `news_time`
string (lines 748-764) is abstracted as the `formatTime` parameter; its
`except` clause skipping unparsable items is the `none` case.  Items with
an empty (falsy) time or date are skipped, the impact id is computed, and
the row is inserted only when the duplicate check matched zero rows. -/
def insertNewsItem (formatTime : String → String → Option String)
    (db : List NewsDBRow) (item : NewsItem) : List NewsDBRow :=
  if item.time = "" ∨ item.date = "" then db
  else
    match formatTime item.time item.date with
    | none => db
    | some news_time =>
      if newsExists db item.event news_time then db
      else
        db ++ [{ news_time := news_time, title := item.event,
                 impact := item.impact, currency := item.currency,
                 actual := item.actual, forecast := item.forecast,
                 previous := item.previous,
                 impact_id := impactIdOf item.impact }]

/-- `insert_news_data` (data_collector.py lines 720-791): fold the
per-item insertion over the scraped list. -/
def insert_news_data (formatTime : String → String → Option String)
    (items : List NewsItem) (db : List NewsDBRow) : List NewsDBRow :=
  items.foldl (insertNewsItem formatTime) db

/-- The number of stored news rows matching a (title, news_time) pair. -/
def countMatchingNews (db : List NewsDBRow) (title time : String) : ℕ :=
  (db.filter (fun r => r.title == title && r.news_time == time)).length

/-! ## Helper lemmas -/

/-- One step of the signal loop equals "overwrite the action with this
indicator's vote when it has one". -/
theorem evalIndicator_eq_vote (th : Thresholds) (a : Action) (n : String) (v : ℚ) :
    evalIndicator th a n v = (indicatorVote th n v).getD a := by
  unfold evalIndicator indicatorVote
  split_ifs <;> rfl

/-- A fold that overwrites an accumulator with each present vote returns the
last present vote, or the initial value when none is present. -/
theorem foldl_getD_getLast (vote : String × ℚ → Option Action)
    (l : List (String × ℚ)) (a : Action) :
    l.foldl (fun act x => (vote x).getD act) a = ((l.filterMap vote).getLast?).getD a := by
  induction l generalizing a with
  | nil => rfl
  | cons x t ih =>
    simp only [List.foldl_cons, List.filterMap_cons]
    cases h : vote x with
    | none => simp [ih]
    | some b =>
      rw [ih]
      cases h2 : t.filterMap vote with
      | nil => simp [h2]
      | cons c cs =>
        obtain ⟨y, hy⟩ := Option.isSome_iff_exists.mp
          (List.getLast?_isSome.mpr (by simp : (c :: cs) ≠ []))
        simp [List.getLast?_cons_cons, hy]

/-- The signal loop computes the last matching indicator vote over any
indicator sequence, falling back to the initial action. -/
theorem signalLoop_eq_getLast (th : Thresholds) (inds : List (String × ℚ)) (a : Action) :
    signalLoop th inds a
      = ((inds.filterMap (fun p => indicatorVote th p.1 p.2)).getLast?).getD a := by
  unfold signalLoop
  have h : (fun act (p : String × ℚ) => evalIndicator th act p.1 p.2)
      = fun act p => (indicatorVote th p.1 p.2).getD act := by
    funext act p
    exact evalIndicator_eq_vote th act p.1 p.2
  rw [h]
  exact foldl_getD_getLast _ inds a

/-- The decision cycle always leaves the threshold table equal to
`update_dynamic_thresholds` applied with performance score `0`: no later
step of the cycle touches the threshold table. -/
theorem cycleState_thresholds (c imp : String) (inds : List (String × ℚ)) (a : Action)
    (d : ℚ) (st : DBState) :
    (cycleState c imp inds a d st).thresholds
      = update_dynamic_thresholds st.thresholds c 0 := by
  simp only [cycleState, update_bad_decision, delete_bad_decision]
  split_ifs <;> rfl

/-- Round-half-to-even of a rational in an integer interval stays in that
interval. -/
theorem roundHalfEven_mem (lo hi : ℤ) (x : ℚ) (h1 : (lo : ℚ) ≤ x) (h2 : x ≤ (hi : ℚ)) :
    lo ≤ roundHalfEven x ∧ roundHalfEven x ≤ hi := by
  have hfl : lo ≤ ⌊x⌋ := Int.le_floor.mpr h1
  have hfu : ⌊x⌋ ≤ hi := by exact_mod_cast (Int.floor_le x).trans h2
  have key : ¬(x - ⌊x⌋ < 1/2) → ⌊x⌋ + 1 ≤ hi := by
    intro hc
    have h3 : (⌊x⌋ : ℚ) + 1/2 ≤ x := by
      have := not_lt.mp hc
      linarith
    have h5 : (⌊x⌋ : ℚ) < (hi : ℚ) := by linarith
    have h6 : ⌊x⌋ < hi := by exact_mod_cast h5
    omega
  simp only [roundHalfEven]
  split_ifs with hf1 hf2 hev
  · exact ⟨hfl, hfu⟩
  · exact ⟨by omega, key hf1⟩
  · exact ⟨hfl, hfu⟩
  · exact ⟨by omega, key hf1⟩

/-- When the duplicate count of a (title, news_time) pair is zero, the
existence check of `insert_news_data` is false. -/
theorem count_zero_newsExists_false (db : List NewsDBRow) (a b : String)
    (h : countMatchingNews db a b = 0) : newsExists db a b = false := by
  unfold countMatchingNews at h
  rw [List.length_eq_zero, List.filter_eq_nil_iff] at h
  unfold newsExists
  rw [List.any_eq_false]
  exact h

/-! ## Claim theorems -/

/-- Claim C1 (code bug witness): with only an SMA reading of 60 against the
default thresholds the decision is `buy`; with simulated draw `-15` the
cycle's `profit_loss` is `-15 < -10`, yet the trade-log record is still
present afterwards, merely rewritten to `hold` — `delete_bad_decision` is
never reached because the deletion test sits in the `elif` of the
`profit_loss < 0` hold-correction and `profit_loss < -10` implies
`profit_loss < 0`.  The claim (and the source's own comments and print
statements) expect the record to be removed for such a loss. -/
theorem loss15_record_rewritten_not_deleted :
    (make_trading_decision "EURUSD" "High" [("SMA", 60)] ⟨0, 55, 0, 65, 0⟩ (-15)
        ⟨[], [], 0, [], [], []⟩).map
      (fun st => st.trade_log.map (fun r => (r.id, r.action, r.result))) =
    some [(0, Action.hold, -15)] := by
  norm_num [make_trading_decision, decideAction, dictGet, signalLoop, evalIndicator,
    rangeFilter, cycleState, evaluate_trade, round2, roundHalfEven,
    get_dynamic_thresholds, update_dynamic_thresholds, save_dynamic_thresholds,
    update_bad_decision, delete_bad_decision, defaultThresholds,
    conservativeThresholds, List.find?, List.foldl]
  simp

/-- Claim C2 (counterexample): with Fibonacci levels
`level_38_2 = 0, level_50_0 = 1, level_61_8 = 10, level_100 = 10` the SMA
value 5 lies strictly inside both the buy band and the sell band, yet the
Range Filter returns `buy`, not `sell`: the sell-band condition is the
`elif` of the buy-band condition and is never tested once the buy band
matched. -/
theorem rangeFilter_both_bands_cex :
    ((0:ℚ) < 5 ∧ (5:ℚ) < 10) ∧ ((1:ℚ) < 5 ∧ (5:ℚ) < 10) ∧
    rangeFilter ⟨0, 0, 1, 10, 10⟩ 5 Action.hold = Action.buy ∧
    ¬ rangeFilter ⟨0, 0, 1, 10, 10⟩ 5 Action.hold = Action.sell := by
  have hb : rangeFilter ⟨0, 0, 1, 10, 10⟩ 5 Action.hold = Action.buy := by
    norm_num [rangeFilter]
  refine ⟨by norm_num, by norm_num, hb, ?_⟩
  rw [hb]
  decide

/-- Claim C2 (amended): in the Range Filter the sell-band condition is only
tested when the buy-band condition failed (`if`/`elif`), so whenever the
SMA lies strictly inside the buy band — in particular when it also lies
inside the sell band — the resulting action is `buy`, the first (and only
evaluated) matching assignment. -/
theorem rangeFilter_buy_band_wins (fib : FibLevels) (sma : ℚ) (a : Action)
    (h1 : fib.level_38_2 < sma) (h2 : sma < fib.level_61_8) :
    rangeFilter fib sma a = Action.buy := by
  simp [rangeFilter, h1, h2]

/-- Witness for the amended claim C2 at the counterexample's input. -/
theorem rangeFilter_buy_band_wins_witness :
    (0:ℚ) < 5 ∧ (5:ℚ) < 10 ∧
    rangeFilter ⟨0, 0, 1, 10, 10⟩ 5 Action.sell = Action.buy :=
  ⟨by norm_num, by norm_num,
    rangeFilter_buy_band_wins ⟨0, 0, 1, 10, 10⟩ 5 Action.sell (by norm_num) (by norm_num)⟩

/-- Claim C3: every successful decision cycle leaves the threshold table
equal to saving the fixed conservative tuple for the currency — the
`performance_score` handed to `update_dynamic_thresholds` is the local
initialised to `0` in `make_trading_decision` and never reassigned, and at
score `0` the binary policy takes the non-positive (conservative) branch,
never the aggressive one. -/
theorem mtd_thresholds_conservative (c imp : String) (inds : List (String × ℚ))
    (fib : FibLevels) (draw : ℚ) (st st' : DBState)
    (h : make_trading_decision c imp inds fib draw st = some st') :
    st'.thresholds = save_dynamic_thresholds st.thresholds c conservativeThresholds ∧
    update_dynamic_thresholds st.thresholds c 0
      = save_dynamic_thresholds st.thresholds c conservativeThresholds := by
  simp only [make_trading_decision] at h
  cases hd : decideAction (get_dynamic_thresholds st.thresholds c) inds fib with
  | none => rw [hd] at h; simp at h
  | some a =>
    rw [hd] at h
    obtain rfl : cycleState c imp inds a draw st = st' := by simpa using h
    rw [cycleState_thresholds]
    norm_num [update_dynamic_thresholds]

/-- Witness for claim C3: a concrete decision cycle (SMA 60 against the
stored default thresholds decides `buy`) rewrites the seeded row to the
conservative tuple. -/
theorem mtd_thresholds_conservative_witness :
    ((cycleState "EURUSD" "High" [("SMA", 60)] Action.buy 0
        ⟨[("EURUSD", defaultThresholds)], [], 0, [], [], []⟩).thresholds
      = save_dynamic_thresholds [("EURUSD", defaultThresholds)] "EURUSD"
          conservativeThresholds) ∧
    update_dynamic_thresholds [("EURUSD", defaultThresholds)] "EURUSD" 0
      = save_dynamic_thresholds [("EURUSD", defaultThresholds)] "EURUSD"
          conservativeThresholds :=
  mtd_thresholds_conservative "EURUSD" "High" [("SMA", 60)] ⟨0, 0, 1, 10, 10⟩ 0
    ⟨[("EURUSD", defaultThresholds)], [], 0, [], [], []⟩ _ (by rfl)

/-- Claim C4: over an indicator sequence in the fixed order SMA, RSI, MACD,
Bollinger upper, EMA, the candidate action produced by the signal loop
before the Range Filter runs equals the vote of the last indicator in that
order whose rule condition holds, and `hold` when no rule matches. -/
theorem signal_last_write_wins (th : Thresholds) (v1 v2 v3 v4 v5 : ℚ) :
    signalLoop th (orderedIndicators v1 v2 v3 v4 v5) Action.hold
      = lastMatchingVote th (orderedIndicators v1 v2 v3 v4 v5) := by
  rw [lastMatchingVote, signalLoop_eq_getLast]

/-- Claim C5: the Range Filter is the last write before the action is
final.  Whatever the indicator votes produced, an SMA strictly inside the
buy band forces the decided action to `buy`, and an SMA strictly inside the
sell band but not inside the buy band forces it to `sell`. -/
theorem rangeFilter_overrides_votes (dyn : Thresholds) (inds : List (String × ℚ))
    (fib : FibLevels) (sma : ℚ) (h : dictGet inds "SMA" = some sma) :
    ((fib.level_38_2 < sma ∧ sma < fib.level_61_8) →
      decideAction dyn inds fib = some Action.buy) ∧
    (((fib.level_50_0 < sma ∧ sma < fib.level_100) ∧
        ¬(fib.level_38_2 < sma ∧ sma < fib.level_61_8)) →
      decideAction dyn inds fib = some Action.sell) := by
  unfold decideAction
  rw [h]
  constructor
  · intro hb
    simp [rangeFilter, hb]
  · rintro ⟨hs, hnb⟩
    simp [rangeFilter, hs, hnb]

/-- Witness for claim C5 at a concrete input. -/
theorem rangeFilter_overrides_votes_witness :
    (((55:ℚ) < 60 ∧ (60:ℚ) < 65) →
      decideAction defaultThresholds [("SMA", 60)] ⟨1, 55, 58, 65, 100⟩
        = some Action.buy) ∧
    ((((58:ℚ) < 60 ∧ (60:ℚ) < 100) ∧ ¬((55:ℚ) < 60 ∧ (60:ℚ) < 65)) →
      decideAction defaultThresholds [("SMA", 60)] ⟨1, 55, 58, 65, 100⟩
        = some Action.sell) :=
  rangeFilter_overrides_votes defaultThresholds [("SMA", 60)] ⟨1, 55, 58, 65, 100⟩ 60
    (by rfl)

/-- Claim C6: the Bollinger rule never fires on pipeline-built inputs — the
pipeline stores the upper band under the key `"Bollinger Band - Upper"`
while the decision loop matches `"Bollinger_upper"` — so two decisions on
pipeline indicator rows that differ only in the Bollinger upper-band value
choose the same action. -/
theorem bollinger_upper_no_influence (dyn : Thresholds) (d : IndicatorRow)
    (b1 b2 : ℚ) (fib : FibLevels) :
    decideAction dyn (pipelineIndicators { d with upper_band := b1 }) fib
      = decideAction dyn (pipelineIndicators { d with upper_band := b2 }) fib := by
  simp [decideAction, pipelineIndicators, dictGet, signalLoop, evalIndicator]

/-- Claim C7: for a currency with no stored threshold row, the adapter's
UPDATE matches zero rows: the threshold store is left unchanged for every
performance score, and a subsequent fetch still returns the default tuple
(50, 30, 70, 0, -2, 0). -/
theorem unseeded_currency_adaptation_noop (db : ThresholdTable) (c : String) (score : ℚ)
    (h : db.find? (fun r => r.1 == c) = none) :
    update_dynamic_thresholds db c score = db ∧
    get_dynamic_thresholds (update_dynamic_thresholds db c score) c = defaultThresholds := by
  have hall := List.find?_eq_none.mp h
  have hsave : ∀ t : Thresholds, save_dynamic_thresholds db c t = db := by
    intro t
    unfold save_dynamic_thresholds
    have hid : ∀ r ∈ db, (if r.1 == c then (r.1, t) else r) = r := by
      intro r hr
      rw [if_neg]
      simpa using hall r hr
    rw [List.map_congr_left hid]
    exact List.map_id' db
  have hupd : update_dynamic_thresholds db c score = db := by
    unfold update_dynamic_thresholds
    exact hsave _
  refine ⟨hupd, ?_⟩
  rw [hupd]
  unfold get_dynamic_thresholds
  rw [h]

/-- Witness for claim C7: a store seeded only for another currency. -/
theorem unseeded_currency_adaptation_noop_witness :
    update_dynamic_thresholds [("USDJPY", defaultThresholds)] "EURUSD" 5
        = [("USDJPY", defaultThresholds)] ∧
    get_dynamic_thresholds
        (update_dynamic_thresholds [("USDJPY", defaultThresholds)] "EURUSD" 5) "EURUSD"
      = defaultThresholds :=
  unseeded_currency_adaptation_noop [("USDJPY", defaultThresholds)] "EURUSD" 5 (by rfl)

/-- Claim C8: the outcome simulator returns exactly 0 for `hold` whatever
the pseudo-random draw, and for `buy`/`sell` it returns a two-decimal value
(an integer number of hundredths) inside the closed interval [-50, 100]
whenever the draw lies in the uniform range [-50, 100]. -/
theorem evaluate_trade_spec (action : Action) (draw : ℚ)
    (h1 : -50 ≤ draw) (h2 : draw ≤ 100) :
    evaluate_trade Action.hold draw = 0 ∧
    (action = Action.buy ∨ action = Action.sell →
      (-50 ≤ evaluate_trade action draw ∧ evaluate_trade action draw ≤ 100) ∧
      ∃ n : ℤ, evaluate_trade action draw = (n : ℚ) / 100) := by
  constructor
  · simp [evaluate_trade]
  · intro ha
    have he : evaluate_trade action draw = round2 draw := by
      simp [evaluate_trade, ha]
    rw [he]
    unfold round2
    have hx1 : ((-5000 : ℤ) : ℚ) ≤ draw * 100 := by push_cast; linarith
    have hx2 : draw * 100 ≤ ((10000 : ℤ) : ℚ) := by push_cast; linarith
    obtain ⟨hl, hu⟩ := roundHalfEven_mem (-5000) 10000 (draw * 100) hx1 hx2
    have hl' : ((-5000 : ℤ) : ℚ) ≤ (roundHalfEven (draw * 100) : ℚ) := by exact_mod_cast hl
    have hu' : ((roundHalfEven (draw * 100) : ℤ) : ℚ) ≤ ((10000 : ℤ) : ℚ) := by
      exact_mod_cast hu
    refine ⟨⟨?_, ?_⟩, ⟨roundHalfEven (draw * 100), rfl⟩⟩
    · rw [le_div_iff₀ (by norm_num : (0:ℚ) < 100)]
      push_cast at hl' ⊢
      linarith
    · rw [div_le_iff₀ (by norm_num : (0:ℚ) < 100)]
      push_cast at hu' ⊢
      linarith

/-- Witness for claim C8 at draw 0 and action `buy`. -/
theorem evaluate_trade_spec_witness :
    (-50:ℚ) ≤ 0 ∧ (0:ℚ) ≤ 100 ∧
    (evaluate_trade Action.hold 0 = 0 ∧
      (Action.buy = Action.buy ∨ Action.buy = Action.sell →
        (-50 ≤ evaluate_trade Action.buy 0 ∧ evaluate_trade Action.buy 0 ≤ 100) ∧
        ∃ n : ℤ, evaluate_trade Action.buy 0 = (n : ℚ) / 100)) :=
  ⟨by norm_num, by norm_num, evaluate_trade_spec Action.buy 0 (by norm_num) (by norm_num)⟩

/-- Claim C9: when the indicator row or the Fibonacci row for a snapshot is
absent, the per-news-row loop body skips the cycle without retrying: the
database state is returned unchanged, so no trade record, performance entry
or threshold update is produced for that snapshot. -/
theorem missing_row_skips_cycle (f : String → Option IndicatorRow)
    (g : String → Option FibLevels) (row : NewsRow) (draw : ℚ) (st : DBState)
    (h : f row.title = none ∨ g row.title = none) :
    processNewsRow f g row draw st = some st := by
  rcases h with h | h
  · simp [processNewsRow, h]
  · cases hf : f row.title <;> simp [processNewsRow, hf, h]

/-- Witness for claim C9: both fetches empty. -/
theorem missing_row_skips_cycle_witness :
    processNewsRow (fun _ => none) (fun _ => none)
        ⟨"CPI", "EURUSD", "", "", "", "High"⟩ 0 ⟨[], [], 0, [], [], []⟩
      = some ⟨[], [], 0, [], [], []⟩ :=
  missing_row_skips_cycle (fun _ => none) (fun _ => none)
    ⟨"CPI", "EURUSD", "", "", "", "High"⟩ 0 ⟨[], [], 0, [], [], []⟩ (Or.inl rfl)

/-- Claim C10: news events are deduplicated by (title, news_time).  When the
store holds no row for the pair, inserting two items with identical title
and formatted timestamp leaves exactly one matching row, and re-running the
insert on the resulting store changes nothing. -/
theorem news_insert_dedup (fmt : String → String → Option String)
    (db : List NewsDBRow) (i1 i2 : NewsItem) (t : String)
    (h1 : ¬(i1.time = "" ∨ i1.date = "")) (h2 : ¬(i2.time = "" ∨ i2.date = ""))
    (hf1 : fmt i1.time i1.date = some t) (hf2 : fmt i2.time i2.date = some t)
    (he : i2.event = i1.event) (h0 : countMatchingNews db i1.event t = 0) :
    countMatchingNews (insert_news_data fmt [i1, i2] db) i1.event t = 1 ∧
    insert_news_data fmt [i2] (insert_news_data fmt [i1] db)
      = insert_news_data fmt [i1] db := by
  have hex : newsExists db i1.event t = false := count_zero_newsExists_false db i1.event t h0
  have step1 : insert_news_data fmt [i1] db
      = db ++ [⟨t, i1.event, i1.impact, i1.currency, i1.actual, i1.forecast,
                i1.previous, impactIdOf i1.impact⟩] := by
    simp only [insert_news_data, List.foldl_cons, List.foldl_nil, insertNewsItem]
    rw [if_neg h1, hf1]
    simp [hex]
  have hex2 : newsExists (db ++ [⟨t, i1.event, i1.impact, i1.currency, i1.actual,
      i1.forecast, i1.previous, impactIdOf i1.impact⟩]) i2.event t = true := by
    rw [he]
    unfold newsExists
    rw [List.any_append]
    simp
  have step2 : insert_news_data fmt [i2] (db ++ [⟨t, i1.event, i1.impact, i1.currency,
      i1.actual, i1.forecast, i1.previous, impactIdOf i1.impact⟩])
      = db ++ [⟨t, i1.event, i1.impact, i1.currency, i1.actual, i1.forecast,
                i1.previous, impactIdOf i1.impact⟩] := by
    simp only [insert_news_data, List.foldl_cons, List.foldl_nil, insertNewsItem]
    rw [if_neg h2, hf2]
    simp [hex2]
  have hsplit : insert_news_data fmt [i1, i2] db
      = insert_news_data fmt [i2] (insert_news_data fmt [i1] db) := rfl
  constructor
  · rw [hsplit, step1, step2]
    unfold countMatchingNews
    rw [List.filter_append, List.length_append]
    unfold countMatchingNews at h0
    rw [h0]
    simp
  · rw [step1, step2]

/-- Witness for claim C10: inserting the same scraped item twice into an
empty store leaves one row. -/
theorem news_insert_dedup_witness :
    countMatchingNews
        (insert_news_data (fun _ _ => some "2026-01-06 10:30:00")
          [⟨"10:30", "MonJan 6", "CPI y/y", "High Impact Expected", "USD", "3.1", "3.0", "2.9"⟩,
           ⟨"10:30", "MonJan 6", "CPI y/y", "High Impact Expected", "USD", "3.1", "3.0", "2.9"⟩]
          []) "CPI y/y" "2026-01-06 10:30:00" = 1 ∧
    insert_news_data (fun _ _ => some "2026-01-06 10:30:00")
        [⟨"10:30", "MonJan 6", "CPI y/y", "High Impact Expected", "USD", "3.1", "3.0", "2.9"⟩]
        (insert_news_data (fun _ _ => some "2026-01-06 10:30:00")
          [⟨"10:30", "MonJan 6", "CPI y/y", "High Impact Expected", "USD", "3.1", "3.0", "2.9"⟩]
          [])
      = insert_news_data (fun _ _ => some "2026-01-06 10:30:00")
          [⟨"10:30", "MonJan 6", "CPI y/y", "High Impact Expected", "USD", "3.1", "3.0", "2.9"⟩]
          [] :=
  news_insert_dedup (fun _ _ => some "2026-01-06 10:30:00") []
    ⟨"10:30", "MonJan 6", "CPI y/y", "High Impact Expected", "USD", "3.1", "3.0", "2.9"⟩
    ⟨"10:30", "MonJan 6", "CPI y/y", "High Impact Expected", "USD", "3.1", "3.0", "2.9"⟩
    "2026-01-06 10:30:00" (by simp) (by simp) rfl rfl rfl rfl

end TradingSystem

